import Mathlib

/-!
Verification of the Remedy UX Assembly rules engine.

This file gives a shallow embedding of the deterministic frontend rules
engine (function buildFinalUI of the rules-engine module) and of the test
evaluator (function evaluateTest of testScenarios.ts), and proves the
specified behavioural properties about them.

Modelling conventions:
- TypeScript optional fields become Option.
- String enums become inductive types.
- JavaScript truthiness tests on strings (an empty string is falsy) are
  modelled by strTruthy; objects and arrays are always truthy in
  JavaScript, so presence tests on them are Option.isSome.
- The imperative pushes into the components, blockedComponents and
  appliedRules arrays are modelled by per-step output records (StepOut)
  concatenated in source order; each step function mirrors one numbered
  block of buildFinalUI.
-/

namespace Remedy

/-! ## Data model of the rules engine (types from the rules-engine module) -/

inductive RiskLevel
  | low
  | medium
  | high
deriving DecidableEq, Repr

inductive Mode
  | informational
  | clarification
  | emergency
deriving DecidableEq, Repr

inductive AlertLevel
  | informational
  | caution
  | emergency
deriving DecidableEq, Repr

structure IntentDetection where
  primary_intent : String
  secondary_intents : Option (List String) := none
  risk_level : RiskLevel
  reasoning : String
deriving DecidableEq, Repr

structure UXMode where
  mode : Mode
  reason : String
deriving DecidableEq, Repr

structure SafetyAlertContent where
  level : AlertLevel
  title : Option String := none
  message : String
deriving DecidableEq, Repr

structure ClarifyingQuestionContent where
  question : String
  options : List String
  allows_exit : Option Bool := none
deriving DecidableEq, Repr

structure ChecklistContent where
  heading : String
  items : List String
deriving DecidableEq, Repr

structure CTAContent where
  primary : String
  secondary : Option String := none
deriving DecidableEq, Repr

structure SourceContent where
  title : String
  site_name : String
  url : String
  description : Option String := none
  image_url : Option String := none
  name : Option String := none
  note : Option String := none
deriving DecidableEq, Repr

structure ResponseContent where
  summary : Option String := none
  safety_alert : Option SafetyAlertContent := none
  clarifying_question : Option ClarifyingQuestionContent := none
  checklist : Option ChecklistContent := none
  cta : Option CTAContent := none
  sources : Option (List SourceContent) := none
deriving DecidableEq, Repr

structure AIResponse where
  intent_detection : IntentDetection
  ux_mode : UXMode
  response_content : ResponseContent
deriving DecidableEq, Repr

inductive ComponentType
  | summary
  | safety_alert
  | clarifying_question
  | checklist
  | cta
  | sources
  | return_to_conversation
deriving DecidableEq, Repr

/-- The type-specific content payload of a placed UI component (the
source stores it as an untyped value; the tag always matches the
component type in the engine). -/
inductive UIContent
  | summaryC : String → UIContent
  | safetyAlertC : SafetyAlertContent → UIContent
  | clarifyingC : ClarifyingQuestionContent → UIContent
  | checklistC : ChecklistContent → UIContent
  | ctaC : CTAContent → UIContent
  | sourcesC : List SourceContent → UIContent
deriving DecidableEq, Repr

structure UIComponent where
  type : ComponentType
  content : UIContent
deriving DecidableEq, Repr

structure FinalUI where
  components : List UIComponent
deriving DecidableEq, Repr

structure Guardrails where
  triage_required : Bool
  free_text_allowed : Bool
  follow_up_questions_allowed : Bool
  escalation_required : Bool
  allowed_components : List ComponentType
  blocked_components : List ComponentType
  applied_rules : List String
deriving DecidableEq, Repr

structure ExitState where
  waiting_for_structured_input : Bool
  returns_to_free_text : Bool
deriving DecidableEq, Repr

structure BuildResult where
  final_ui : FinalUI
  guardrails : Guardrails
  exit_state : ExitState
deriving DecidableEq, Repr

/-! ## The rules engine (buildFinalUI of the rules-engine module) -/

/-- JavaScript truthiness of an optional string: absent and the empty
string are falsy. -/
def strTruthy : Option String → Bool
  | some s => s != ""
  | none => false

/-- isEmergency of buildFinalUI: mode equals emergency. -/
def emergencyFlag (r : AIResponse) : Bool :=
  r.ux_mode.mode == Mode.emergency

/-- isTriage of buildFinalUI: exact string match on the primary intent. -/
def triageFlag (r : AIResponse) : Bool :=
  r.intent_detection.primary_intent == "Triage (Urgent)"

/-- clarifyingLimitExceeded of buildFinalUI: clarifyingCount at least 2. -/
def clarifyingLimitExceeded (clarifyingCount : Nat) : Bool :=
  decide (2 ≤ clarifyingCount)

/-- hasClarifyingQuestion after the safety-net stripping: a clarifying
question is present in the content and the limit is not exceeded. -/
def effectiveHasCQ (r : AIResponse) (clarifyingCount : Nat) : Bool :=
  r.response_content.clarifying_question.isSome && !clarifyingLimitExceeded clarifyingCount

/-- The output of one placement step: components pushed, component types
pushed to blockedComponents, and strings pushed to appliedRules. -/
structure StepOut where
  comps : List UIComponent := []
  blocked : List ComponentType := []
  rules : List String := []
deriving DecidableEq, Repr

def alertLevelStr : AlertLevel → String
  | AlertLevel.informational => "informational"
  | AlertLevel.caution => "caution"
  | AlertLevel.emergency => "emergency"

/-- Step 1 of buildFinalUI: safety alert with level caution or emergency
is placed at the top. -/
def alertTopStep (rc : ResponseContent) : StepOut :=
  match rc.safety_alert with
  | some sa =>
    if sa.level == AlertLevel.caution || sa.level == AlertLevel.emergency then
      { comps := [{ type := ComponentType.safety_alert, content := UIContent.safetyAlertC sa }],
        rules := ["Safety alert (" ++ alertLevelStr sa.level ++ ") placed at top"] }
    else {}
  | none => {}

/-- Step 2 of buildFinalUI: summary is placed unless in emergency mode,
in which case it is recorded as blocked.  The source tests the summary
string for truthiness, so an empty summary takes neither branch. -/
def summaryStep (rc : ResponseContent) (isEmergency : Bool) : StepOut :=
  match rc.summary with
  | some s =>
    if (s != "") && !isEmergency then
      { comps := [{ type := ComponentType.summary, content := UIContent.summaryC s }] }
    else if (s != "") && isEmergency then
      { blocked := [ComponentType.summary], rules := ["Summary blocked: emergency mode"] }
    else {}
  | none => {}

/-- Step 3 of buildFinalUI: informational safety alert is placed after
the summary. -/
def alertInfoStep (rc : ResponseContent) : StepOut :=
  match rc.safety_alert with
  | some sa =>
    if sa.level == AlertLevel.informational then
      { comps := [{ type := ComponentType.safety_alert, content := UIContent.safetyAlertC sa }],
        rules := ["Informational alert placed below summary"] }
    else {}
  | none => {}

/-- Step 4 of buildFinalUI: the clarifying question is placed unless
suppressed (emergency) or stripped (limit exceeded), each recorded as
blocked. -/
def clarifyingStep (rc : ResponseContent) (hasCQ suppress limitExceeded : Bool) : StepOut :=
  if hasCQ && !suppress then
    match rc.clarifying_question with
    | some q =>
      { comps := [{ type := ComponentType.clarifying_question, content := UIContent.clarifyingC q }],
        rules := ["Clarifying question included"] }
    | none => {}
  else if rc.clarifying_question.isSome && suppress then
    { blocked := [ComponentType.clarifying_question],
      rules := ["Clarifying question suppressed (emergency mode)"] }
  else if rc.clarifying_question.isSome && limitExceeded then
    { blocked := [ComponentType.clarifying_question] }
  else {}

/-- Step 5 of buildFinalUI: checklist with items truncated to 5, dropped
when fewer than 2 items remain; blocked in emergency mode or when a
clarifying question is pending. -/
def checklistStep (rc : ResponseContent) (suppress hasCQ : Bool) : StepOut :=
  match rc.checklist with
  | some cl =>
    if !suppress && !hasCQ then
      let items := cl.items.take 5
      if decide (2 ≤ items.length) then
        { comps := [{ type := ComponentType.checklist,
                      content := UIContent.checklistC { cl with items := items } }],
          rules := ["Checklist included (" ++ toString items.length ++ " items)"] }
      else {}
    else if suppress then
      { blocked := [ComponentType.checklist],
        rules := ["Checklist suppressed (emergency mode)"] }
    else
      { blocked := [ComponentType.checklist],
        rules := ["Checklist blocked: clarifying question present"] }
  | none => {}

/-- Truthiness of the optional secondary CTA string, as tested by the
source before attaching the secondary action. -/
def ctaSecondaryTruthy (cta : CTAContent) : Bool :=
  strTruthy cta.secondary

/-- Step 6 of buildFinalUI: the CTA policy.  Blocked under a pending
clarifying question; primary-only in emergency mode; secondary kept only
outside triage. -/
def ctaStep (rc : ResponseContent) (hasCQ isEmergency isTriage : Bool) : StepOut :=
  match rc.cta with
  | some cta =>
    if hasCQ then
      { blocked := [ComponentType.cta],
        rules := ["CTA blocked: clarifying question present"] }
    else if isEmergency then
      { comps := [{ type := ComponentType.cta, content := UIContent.ctaC { primary := cta.primary } }],
        rules := ["CTA included: emergency mode (primary only)"] }
    else if ctaSecondaryTruthy cta && !isTriage then
      { comps := [{ type := ComponentType.cta,
                    content := UIContent.ctaC { primary := cta.primary, secondary := cta.secondary } }],
        rules := ["CTA included with secondary action"] }
    else if ctaSecondaryTruthy cta && isTriage then
      { comps := [{ type := ComponentType.cta, content := UIContent.ctaC { primary := cta.primary } }],
        rules := ["Secondary CTA blocked: triage mode"] }
    else
      { comps := [{ type := ComponentType.cta, content := UIContent.ctaC { primary := cta.primary } }],
        rules := ["CTA included (primary only)"] }
  | none => {}

/-- Step 7 of buildFinalUI: sources truncated to 4; blocked in emergency
mode or when a clarifying question is pending; a present empty sources
array in the eligible branch places nothing. -/
def sourcesStep (rc : ResponseContent) (suppress hasCQ : Bool) : StepOut :=
  match rc.sources with
  | some srcs =>
    if decide (0 < srcs.length) && !suppress && !hasCQ then
      let sources := srcs.take 4
      if decide (1 ≤ sources.length) then
        { comps := [{ type := ComponentType.sources, content := UIContent.sourcesC sources }],
          rules := ["Sources included (" ++ toString sources.length ++ ")"] }
      else {}
    else if suppress then
      { blocked := [ComponentType.sources],
        rules := ["Sources suppressed (emergency mode)"] }
    else if hasCQ then
      { blocked := [ComponentType.sources],
        rules := ["Sources blocked: clarifying question present"] }
    else {}
  | none => {}

/-- The rules pushed before the stacking steps: the stripping notice for
an over-limit clarifying question and the emergency suppression notice. -/
def preRules (rc : ResponseContent) (isEmergency limitExceeded : Bool) : List String :=
  (if rc.clarifying_question.isSome && limitExceeded then
      ["Clarifying question stripped: limit exceeded (2/2)"]
    else []) ++
  (if isEmergency then ["Emergency mode: suppressing non-essential UI"] else [])

/-- The components array of buildFinalUI: the seven stacking steps
concatenated in source order. -/
def assembledComponents (r : AIResponse) (c : Nat) : List UIComponent :=
  (alertTopStep r.response_content).comps ++
  (summaryStep r.response_content (emergencyFlag r)).comps ++
  (alertInfoStep r.response_content).comps ++
  (clarifyingStep r.response_content (effectiveHasCQ r c) (emergencyFlag r)
    (clarifyingLimitExceeded c)).comps ++
  (checklistStep r.response_content (emergencyFlag r) (effectiveHasCQ r c)).comps ++
  (ctaStep r.response_content (effectiveHasCQ r c) (emergencyFlag r) (triageFlag r)).comps ++
  (sourcesStep r.response_content (emergencyFlag r) (effectiveHasCQ r c)).comps

/-- The blockedComponents array of buildFinalUI, in push order. -/
def assembledBlocked (r : AIResponse) (c : Nat) : List ComponentType :=
  (alertTopStep r.response_content).blocked ++
  (summaryStep r.response_content (emergencyFlag r)).blocked ++
  (alertInfoStep r.response_content).blocked ++
  (clarifyingStep r.response_content (effectiveHasCQ r c) (emergencyFlag r)
    (clarifyingLimitExceeded c)).blocked ++
  (checklistStep r.response_content (emergencyFlag r) (effectiveHasCQ r c)).blocked ++
  (ctaStep r.response_content (effectiveHasCQ r c) (emergencyFlag r) (triageFlag r)).blocked ++
  (sourcesStep r.response_content (emergencyFlag r) (effectiveHasCQ r c)).blocked

/-- The appliedRules array of buildFinalUI, in push order. -/
def assembledRules (r : AIResponse) (c : Nat) : List String :=
  preRules r.response_content (emergencyFlag r) (clarifyingLimitExceeded c) ++
  (alertTopStep r.response_content).rules ++
  (summaryStep r.response_content (emergencyFlag r)).rules ++
  (alertInfoStep r.response_content).rules ++
  (clarifyingStep r.response_content (effectiveHasCQ r c) (emergencyFlag r)
    (clarifyingLimitExceeded c)).rules ++
  (checklistStep r.response_content (emergencyFlag r) (effectiveHasCQ r c)).rules ++
  (ctaStep r.response_content (effectiveHasCQ r c) (emergencyFlag r) (triageFlag r)).rules ++
  (sourcesStep r.response_content (emergencyFlag r) (effectiveHasCQ r c)).rules

/-- buildFinalUI of the rules-engine module: deterministic assembly of
the final UI, the guardrails and the exit state from an AI response and
the running clarifying-question count. -/
def buildFinalUI (response : AIResponse) (clarifyingCount : Nat := 0) : BuildResult :=
  { final_ui := { components := assembledComponents response clarifyingCount },
    guardrails :=
      { triage_required := triageFlag response,
        free_text_allowed := !effectiveHasCQ response clarifyingCount,
        follow_up_questions_allowed := !emergencyFlag response,
        escalation_required :=
          emergencyFlag response || (response.intent_detection.risk_level == RiskLevel.high),
        allowed_components := (assembledComponents response clarifyingCount).map (fun comp => comp.type),
        blocked_components := assembledBlocked response clarifyingCount,
        applied_rules := assembledRules response clarifyingCount },
    exit_state :=
      { waiting_for_structured_input :=
          effectiveHasCQ response clarifyingCount && !emergencyFlag response,
        returns_to_free_text :=
          !effectiveHasCQ response clarifyingCount ||
            (effectiveHasCQ response clarifyingCount &&
              ((response.response_content.clarifying_question.bind
                  (fun q => q.allows_exit)).getD false)) } }

/-- The component types placed in a build result, in order. -/
def componentTypes (res : BuildResult) : List ComponentType :=
  res.final_ui.components.map (fun comp => comp.type)

/-! ## Data model of the test harness (testScenarios.ts) -/

/-- The four-valued verdict of the test harness.  The constructor mixed
stands for the source's middle verdict string between pass and fail. -/
inductive TestResult
  | pass
  | mixed
  | fail
  | pending
deriving DecidableEq, Repr

/-- TestExpectation of testScenarios.ts.  The optional tri-state field
safety_alert_level (absent, null, or a level string) is modelled as an
Option of an Option. -/
structure TestExpectation where
  ux_mode : String
  risk_level : String
  primary_intent : String
  required_components : List String
  forbidden_components : Option (List String) := none
  safety_alert_level : Option (Option String) := none
  safety_alert_position : Option (Option String) := none
  free_text_allowed : Bool
  notes : Option String := none
deriving DecidableEq, Repr

structure TestScenario where
  id : Nat
  name : String
  category : String
  input : String
  description : String
  expectations : TestExpectation
deriving DecidableEq, Repr

/-- The loosely-typed response object accepted by evaluateTest.  The
content of a UI component is an unknown value in the source; the
evaluator only observes whether it is a non-null object and, if so, its
optional level field, so exactly those observations are embedded. -/
structure EvalComponent where
  type : String
  content_is_object : Bool := false
  content_level : Option String := none
deriving DecidableEq, Repr

structure EvalUXMode where
  mode : String
deriving DecidableEq, Repr

structure EvalIntent where
  primary_intent : String
  risk_level : String
deriving DecidableEq, Repr

structure EvalFinalUI where
  components : List EvalComponent
deriving DecidableEq, Repr

structure EvalExitState where
  waiting_for_structured_input : Bool
deriving DecidableEq, Repr

structure EvalSafetyAlert where
  level : String
deriving DecidableEq, Repr

structure EvalRespContent where
  safety_alert : Option EvalSafetyAlert := none
deriving DecidableEq, Repr

structure EvalResponse where
  ux_mode : Option EvalUXMode := none
  intent_detection : Option EvalIntent := none
  final_ui : Option EvalFinalUI := none
  exit_state : Option EvalExitState := none
  response_content : Option EvalRespContent := none
deriving DecidableEq, Repr

structure StrFieldDetail where
  expected : String
  actual : Option String
  result : TestResult
deriving DecidableEq, Repr

structure ReqDetail where
  expected : List String
  actual : List String
  missing : List String
  result : TestResult
deriving DecidableEq, Repr

structure ForbDetail where
  expected : List String
  found : List String
  result : TestResult
deriving DecidableEq, Repr

structure SafetyDetail where
  expected : Option String
  actual : Option String
  result : TestResult
deriving DecidableEq, Repr

structure BoolFieldDetail where
  expected : Bool
  actual : Bool
  result : TestResult
deriving DecidableEq, Repr

structure EvalDetails where
  ux_mode : StrFieldDetail
  risk_level : StrFieldDetail
  primary_intent : StrFieldDetail
  required_components : ReqDetail
  forbidden_components : Option ForbDetail := none
  safety_alert : Option SafetyDetail := none
  free_text_allowed : BoolFieldDetail
deriving DecidableEq, Repr

structure TestEvaluation where
  testId : Nat
  overall : TestResult
  details : EvalDetails
deriving DecidableEq, Repr

/-! ## The evaluator (evaluateTest of testScenarios.ts) -/

/-- The JavaScript expression x or-else null over an optional string:
absent and the empty string both give null. -/
def jsOrNull : Option String → Option String
  | some s => if s == "" then none else some s
  | none => none

/-- Whether a character list starts with a pattern. -/
def listStartsWith : List Char → List Char → Bool
  | _, [] => true
  | [], _ :: _ => false
  | c :: cs, p :: ps => c == p && listStartsWith cs ps

/-- Whether a pattern occurs anywhere in a character list. -/
def listOccurs (pat : List Char) : List Char → Bool
  | [] => pat.isEmpty
  | c :: cs => listStartsWith (c :: cs) pat || listOccurs pat cs

/-- JavaScript String.prototype.includes: substring occurrence, with the
empty pattern always present. -/
def jsIncludes (s pat : String) : Bool :=
  listOccurs pat.data s.data

/-- ASCII lower-casing of a string (the evaluator compares intent
strings; JavaScript toLowerCase agrees with this on the ASCII range). -/
def strToLower (s : String) : String :=
  String.mk (s.data.map Char.toLower)

def firstWordChars : List Char → List Char
  | [] => []
  | c :: cs => if c == ' ' then [] else c :: firstWordChars cs

/-- The first word of a string as computed by split on a space followed
by indexing at zero. -/
def firstWord (s : String) : String :=
  String.mk (firstWordChars s.data)

/-- The aggregate verdict of evaluateTest from the list of relevant
per-field verdicts (lines 362-377 of testScenarios.ts).  The source
compares failCount against results.length divided by 2 in exact
(floating-point) arithmetic, which over naturals is the comparison
2 * failCount against results.length. -/
def overallOf (results : List TestResult) : TestResult :=
  if (results.filter (fun v => v == TestResult.fail)).length == 0 &&
      (results.filter (fun v => v == TestResult.pass)).length == results.length then
    TestResult.pass
  else if decide (results.length < 2 * (results.filter (fun v => v == TestResult.fail)).length) then
    TestResult.fail
  else TestResult.mixed

/-- The per-field verdicts of evaluateTest for a non-null response,
in the order the source pushes them into its results array.  Bundled in
one structure so the aggregate and the returned details provably agree. -/
structure FieldVerdicts where
  uxModeResult : TestResult
  riskResult : TestResult
  intentResult : TestResult
  requiredResult : TestResult
  freeTextResult : TestResult
  forbiddenResult : TestResult
  safetyResult : TestResult
deriving DecidableEq, Repr

/-- The actual values evaluateTest extracts from a non-null response. -/
def actualComponentsOf (resp : EvalResponse) : List String :=
  match resp.final_ui with
  | some f => f.components.map (fun comp => comp.type)
  | none => []

def actualFreeTextOf (resp : EvalResponse) : Bool :=
  !((resp.exit_state.map (fun e => e.waiting_for_structured_input)).getD false)

/-- actualSafetyLevel of evaluateTest: the level from response_content,
or else the level field of the first safety_alert component whose
content is a non-null object. -/
def actualSafetyLevelOf (resp : EvalResponse) : Option String :=
  match jsOrNull ((resp.response_content.bind (fun rcnt => rcnt.safety_alert)).map
      (fun sa => sa.level)) with
  | some l => some l
  | none =>
    match resp.final_ui with
    | some f =>
      match f.components.find? (fun comp => comp.type == "safety_alert") with
      | some sc => if sc.content_is_object then jsOrNull sc.content_level else none
      | none => none
    | none => none

/-- missingComponents of evaluateTest: expected required components not
among the actual ones. -/
def missingComponentsOf (expectations : TestExpectation) (resp : EvalResponse) : List String :=
  expectations.required_components.filter
    (fun comp => !(actualComponentsOf resp).contains comp)

/-- foundForbidden of evaluateTest: declared forbidden components that
appear among the actual ones (empty when none are declared). -/
def foundForbiddenOf (expectations : TestExpectation) (resp : EvalResponse) : List String :=
  match expectations.forbidden_components with
  | some fc => fc.filter (fun comp => (actualComponentsOf resp).contains comp)
  | none => []

/-- The per-field verdict computations of evaluateTest (lines 316-360 of
testScenarios.ts) for a non-null response. -/
def fieldVerdicts (expectations : TestExpectation) (resp : EvalResponse) : FieldVerdicts :=
  let actualMode := jsOrNull (resp.ux_mode.map (fun m => m.mode))
  let actualRisk := jsOrNull (resp.intent_detection.map (fun i => i.risk_level))
  let actualIntent := jsOrNull (resp.intent_detection.map (fun i => i.primary_intent))
  let actualSafetyLevel := actualSafetyLevelOf resp
  let uxModeResult :=
    if actualMode == some expectations.ux_mode then TestResult.pass else TestResult.fail
  let riskResult :=
    if actualRisk == some expectations.risk_level then TestResult.pass
    else if (match actualRisk with
        | some a => (a == "low" || a == "medium") &&
            (expectations.risk_level == "low" || expectations.risk_level == "medium")
        | none => false) then TestResult.mixed
    else TestResult.fail
  let intentMatch :=
    (match actualIntent with
      | some ai => jsIncludes (strToLower ai) (firstWord (strToLower expectations.primary_intent))
      | none => false) ||
    jsIncludes (strToLower expectations.primary_intent)
      (match actualIntent with
        | some ai => firstWord (strToLower ai)
        | none => "")
  let intentResult := if intentMatch then TestResult.pass else TestResult.mixed
  let missing := missingComponentsOf expectations resp
  -- The source compares missing.length against required.length divided
  -- by 2 in exact arithmetic: over naturals that is 2 * missing.length
  -- against required.length.
  let requiredResult :=
    if missing.length == 0 then TestResult.pass
    else if decide (2 * missing.length < expectations.required_components.length) then
      TestResult.mixed
    else TestResult.fail
  let forbiddenResult :=
    if (foundForbiddenOf expectations resp).length == 0 then TestResult.pass else TestResult.fail
  let safetyResult :=
    match expectations.safety_alert_level with
    | none => TestResult.pass
    | some none =>
      if actualSafetyLevel == none then TestResult.pass
      else if actualSafetyLevel == some "informational" then TestResult.mixed
      else TestResult.fail
    | some (some expLevel) =>
      if expLevel == "informational" then
        if actualSafetyLevel == some "informational" then TestResult.pass else TestResult.mixed
      else
        if actualSafetyLevel == some expLevel then TestResult.pass
        else if actualSafetyLevel.isSome then TestResult.mixed
        else TestResult.fail
  let freeTextResult :=
    if actualFreeTextOf resp == expectations.free_text_allowed then TestResult.pass
    else TestResult.fail
  { uxModeResult := uxModeResult, riskResult := riskResult, intentResult := intentResult,
    requiredResult := requiredResult, freeTextResult := freeTextResult,
    forbiddenResult := forbiddenResult, safetyResult := safetyResult }

/-- The results array of evaluateTest: the five base verdicts, then the
forbidden verdict when the scenario declares forbidden components, then
the safety verdict when the scenario declares a safety-alert-level
expectation. -/
def relevantResults (expectations : TestExpectation) (v : FieldVerdicts) : List TestResult :=
  [v.uxModeResult, v.riskResult, v.intentResult, v.requiredResult, v.freeTextResult] ++
  (match expectations.forbidden_components with
    | some _ => [v.forbiddenResult]
    | none => []) ++
  (match expectations.safety_alert_level with
    | some _ => [v.safetyResult]
    | none => [])

/-- evaluateTest of testScenarios.ts: score a response (or null) against
one scenario, field by field, with an aggregate verdict. -/
def evaluateTest (scenario : TestScenario) (response : Option EvalResponse) : TestEvaluation :=
  let expectations := scenario.expectations
  match response with
  | none =>
    { testId := scenario.id,
      overall := TestResult.fail,
      details :=
        { ux_mode := { expected := expectations.ux_mode, actual := none, result := TestResult.fail },
          risk_level :=
            { expected := expectations.risk_level, actual := none, result := TestResult.fail },
          primary_intent :=
            { expected := expectations.primary_intent, actual := none, result := TestResult.fail },
          required_components :=
            { expected := expectations.required_components, actual := [],
              missing := expectations.required_components, result := TestResult.fail },
          free_text_allowed :=
            { expected := expectations.free_text_allowed, actual := true,
              result := TestResult.fail } } }
  | some resp =>
    let v := fieldVerdicts expectations resp
    { testId := scenario.id,
      overall := overallOf (relevantResults expectations v),
      details :=
        { ux_mode :=
            { expected := expectations.ux_mode,
              actual := jsOrNull (resp.ux_mode.map (fun m => m.mode)),
              result := v.uxModeResult },
          risk_level :=
            { expected := expectations.risk_level,
              actual := jsOrNull (resp.intent_detection.map (fun i => i.risk_level)),
              result := v.riskResult },
          primary_intent :=
            { expected := expectations.primary_intent,
              actual := jsOrNull (resp.intent_detection.map (fun i => i.primary_intent)),
              result := v.intentResult },
          required_components :=
            { expected := expectations.required_components,
              actual := actualComponentsOf resp,
              missing := missingComponentsOf expectations resp,
              result := v.requiredResult },
          forbidden_components :=
            match expectations.forbidden_components with
            | some fc =>
              some { expected := fc, found := foundForbiddenOf expectations resp,
                     result := v.forbiddenResult }
            | none => none,
          safety_alert :=
            match expectations.safety_alert_level with
            | some e =>
              some { expected := e, actual := actualSafetyLevelOf resp,
                     result := v.safetyResult }
            | none => none,
          free_text_allowed :=
            { expected := expectations.free_text_allowed,
              actual := actualFreeTextOf resp,
              result := v.freeTextResult } } }

/-- The relevant per-field verdicts recorded in an evaluation's details:
the five always-present fields plus the optional forbidden-components
and safety-alert verdicts when recorded. -/
def detailResults (d : EvalDetails) : List TestResult :=
  [d.ux_mode.result, d.risk_level.result, d.primary_intent.result,
    d.required_components.result, d.free_text_allowed.result] ++
  (match d.forbidden_components with
    | some f => [f.result]
    | none => []) ++
  (match d.safety_alert with
    | some s => [s.result]
    | none => [])

/-! ## Structural lemmas about the placement steps -/

theorem mem_assembledComponents {r : AIResponse} {c : Nat} {comp : UIComponent} :
    comp ∈ assembledComponents r c ↔
      comp ∈ (alertTopStep r.response_content).comps ∨
      comp ∈ (summaryStep r.response_content (emergencyFlag r)).comps ∨
      comp ∈ (alertInfoStep r.response_content).comps ∨
      comp ∈ (clarifyingStep r.response_content (effectiveHasCQ r c) (emergencyFlag r)
        (clarifyingLimitExceeded c)).comps ∨
      comp ∈ (checklistStep r.response_content (emergencyFlag r) (effectiveHasCQ r c)).comps ∨
      comp ∈ (ctaStep r.response_content (effectiveHasCQ r c) (emergencyFlag r) (triageFlag r)).comps ∨
      comp ∈ (sourcesStep r.response_content (emergencyFlag r) (effectiveHasCQ r c)).comps := by
  unfold assembledComponents
  simp [List.mem_append, or_assoc]

theorem mem_componentTypes {r : AIResponse} {c : Nat} {t : ComponentType} :
    t ∈ componentTypes (buildFinalUI r c) ↔
      ∃ comp ∈ assembledComponents r c, comp.type = t := by
  simp [componentTypes, buildFinalUI, List.mem_map]

theorem alertTopStep_type {rc : ResponseContent} {comp : UIComponent}
    (h : comp ∈ (alertTopStep rc).comps) : comp.type = ComponentType.safety_alert := by
  rcases hsa : rc.safety_alert with _ | sa
  · simp [alertTopStep, hsa] at h
  · simp only [alertTopStep, hsa] at h
    split_ifs at h <;> simp at h
    rw [h]

theorem summaryStep_type {rc : ResponseContent} {b : Bool} {comp : UIComponent}
    (h : comp ∈ (summaryStep rc b).comps) : comp.type = ComponentType.summary := by
  rcases hs : rc.summary with _ | s
  · simp [summaryStep, hs] at h
  · simp only [summaryStep, hs] at h
    split_ifs at h <;> simp at h
    rw [h]

theorem summaryStep_emergency_comps (rc : ResponseContent) :
    (summaryStep rc true).comps = [] := by
  rcases hs : rc.summary with _ | s
  · simp [summaryStep, hs]
  · simp only [summaryStep, hs]
    split_ifs with h1 h2 <;> first | rfl | simp at h1 | simp at h2

theorem alertInfoStep_type {rc : ResponseContent} {comp : UIComponent}
    (h : comp ∈ (alertInfoStep rc).comps) : comp.type = ComponentType.safety_alert := by
  rcases hsa : rc.safety_alert with _ | sa
  · simp [alertInfoStep, hsa] at h
  · simp only [alertInfoStep, hsa] at h
    split_ifs at h <;> simp at h
    rw [h]

theorem clarifyingStep_type {rc : ResponseContent} {b₁ b₂ b₃ : Bool} {comp : UIComponent}
    (h : comp ∈ (clarifyingStep rc b₁ b₂ b₃).comps) :
    comp.type = ComponentType.clarifying_question := by
  rcases hq : rc.clarifying_question with _ | q
  · simp only [clarifyingStep, hq] at h
    split_ifs at h <;> simp at h
  · simp only [clarifyingStep, hq] at h
    split_ifs at h <;> simp at h
    rw [h]

theorem clarifyingStep_comps_of_no_cq {rc : ResponseContent} {b₂ b₃ : Bool} :
    (clarifyingStep rc false b₂ b₃).comps = [] := by
  rcases hq : rc.clarifying_question with _ | q <;>
    simp only [clarifyingStep, hq] <;>
    split_ifs with h1 h2 h3 <;>
    first | rfl | simp at h1 | simp at h2 | simp at h3

theorem clarifyingStep_comps_of_suppress {rc : ResponseContent} {b₁ b₃ : Bool} :
    (clarifyingStep rc b₁ true b₃).comps = [] := by
  rcases hq : rc.clarifying_question with _ | q <;>
    simp only [clarifyingStep, hq] <;>
    split_ifs with h1 h2 h3 <;>
    first | rfl | simp at h1 | simp at h2 | simp at h3

theorem checklistStep_type {rc : ResponseContent} {b₁ b₂ : Bool} {comp : UIComponent}
    (h : comp ∈ (checklistStep rc b₁ b₂).comps) : comp.type = ComponentType.checklist := by
  rcases hc : rc.checklist with _ | cl
  · simp [checklistStep, hc] at h
  · simp only [checklistStep, hc] at h
    split_ifs at h <;> simp at h
    rw [h]

theorem checklistStep_comps_of_suppress {rc : ResponseContent} {b₂ : Bool} :
    (checklistStep rc true b₂).comps = [] := by
  rcases hc : rc.checklist with _ | cl <;>
    simp only [checklistStep, hc] <;>
    split_ifs with h1 h2 h3 <;>
    first | rfl | simp at h1 | simp at h2 | simp at h3

theorem checklistStep_comps_of_cq {rc : ResponseContent} {b₁ : Bool} :
    (checklistStep rc b₁ true).comps = [] := by
  rcases hc : rc.checklist with _ | cl <;>
    simp only [checklistStep, hc] <;>
    split_ifs with h1 h2 h3 <;>
    first | rfl | simp at h1 | simp at h2 | simp at h3

theorem ctaStep_type {rc : ResponseContent} {b₁ b₂ b₃ : Bool} {comp : UIComponent}
    (h : comp ∈ (ctaStep rc b₁ b₂ b₃).comps) : comp.type = ComponentType.cta := by
  rcases hc : rc.cta with _ | cta
  · simp [ctaStep, hc] at h
  · simp only [ctaStep, hc] at h
    split_ifs at h <;> simp at h <;> rw [h]

theorem ctaStep_comps_of_cq {rc : ResponseContent} {b₂ b₃ : Bool} :
    (ctaStep rc true b₂ b₃).comps = [] := by
  rcases hc : rc.cta with _ | cta <;>
    simp only [ctaStep, hc] <;>
    split_ifs with h1 h2 h3 h4 <;>
    first | rfl | simp at h1 | simp at h2 | simp at h3 | simp at h4

theorem ctaStep_emergency {rc : ResponseContent} {b₃ : Bool} {cta : CTAContent}
    (h : rc.cta = some cta) :
    (ctaStep rc false true b₃).comps =
      [{ type := ComponentType.cta, content := UIContent.ctaC { primary := cta.primary } }] := by
  simp [ctaStep, h]

theorem sourcesStep_type {rc : ResponseContent} {b₁ b₂ : Bool} {comp : UIComponent}
    (h : comp ∈ (sourcesStep rc b₁ b₂).comps) : comp.type = ComponentType.sources := by
  rcases hs : rc.sources with _ | srcs
  · simp [sourcesStep, hs] at h
  · simp only [sourcesStep, hs] at h
    split_ifs at h <;> simp at h
    rw [h]

theorem sourcesStep_comps_of_suppress {rc : ResponseContent} {b₂ : Bool} :
    (sourcesStep rc true b₂).comps = [] := by
  rcases hs : rc.sources with _ | srcs <;>
    simp only [sourcesStep, hs] <;>
    split_ifs with h1 h2 h3 h4 <;>
    first | rfl | simp at h1 | simp at h2 | simp at h3 | simp at h4

theorem sourcesStep_comps_of_cq {rc : ResponseContent} {b₁ : Bool} :
    (sourcesStep rc b₁ true).comps = [] := by
  rcases hs : rc.sources with _ | srcs <;>
    simp only [sourcesStep, hs] <;>
    split_ifs with h1 h2 h3 h4 <;>
    first | rfl | simp at h1 | simp at h2 | simp at h3 | simp at h4

/-- In emergency mode only safety alerts and CTAs can ever be placed:
summary, checklist, sources and clarifying questions are all suppressed. -/
theorem emergency_componentTypes {r : AIResponse} {c : Nat} (hE : emergencyFlag r = true)
    {t : ComponentType} (hmem : t ∈ componentTypes (buildFinalUI r c)) :
    t = ComponentType.safety_alert ∨ t = ComponentType.cta := by
  rcases mem_componentTypes.1 hmem with ⟨comp, hm, ht⟩
  rcases mem_assembledComponents.1 hm with h1 | h2 | h3 | h4 | h5 | h6 | h7
  · left; rw [← ht]; exact alertTopStep_type h1
  · rw [hE, summaryStep_emergency_comps] at h2; simp at h2
  · left; rw [← ht]; exact alertInfoStep_type h3
  · rw [hE, clarifyingStep_comps_of_suppress] at h4; simp at h4
  · rw [hE, checklistStep_comps_of_suppress] at h5; simp at h5
  · right; rw [← ht]; exact ctaStep_type h6
  · rw [hE, sourcesStep_comps_of_suppress] at h7; simp at h7

/-! ## Concrete inputs used by witnesses and counterexamples -/

def sampleIntent : IntentDetection :=
  { primary_intent := "Explain", risk_level := RiskLevel.low, reasoning := "general question" }

def triageIntent : IntentDetection :=
  { primary_intent := "Triage (Urgent)", risk_level := RiskLevel.high, reasoning := "severe symptoms" }

def sampleCQ : ClarifyingQuestionContent :=
  { question := "Where is the pain located?", options := ["Chest", "Back"] }

def sampleSource : SourceContent :=
  { title := "Health guide", site_name := "example", url := "https://example.org" }

/-- Emergency-mode input carrying both a clarifying question and a CTA:
the CTA is blocked by the pending question even in emergency mode. -/
def emergencyCQInput : AIResponse :=
  { intent_detection := sampleIntent,
    ux_mode := { mode := Mode.emergency, reason := "possible emergency" },
    response_content :=
      { clarifying_question := some sampleCQ,
        cta := some { primary := "Call emergency services", secondary := some "Find a clinic" } } }

/-- Emergency-mode input with summary, checklist, sources and a CTA with
a secondary action, and no clarifying question. -/
def emergencyFullInput : AIResponse :=
  { intent_detection := triageIntent,
    ux_mode := { mode := Mode.emergency, reason := "clear emergency" },
    response_content :=
      { summary := some "Seek immediate help",
        checklist := some { heading := "Steps", items := ["sit down", "call", "wait"] },
        cta := some { primary := "Call emergency services", secondary := some "Find a clinic" },
        sources := some [sampleSource] } }

/-! ## C1 — emergency suppression -/

/-- C1 counterexample: the claim that in emergency mode a present CTA
always appears in the output fails when a clarifying question is also
present with clarifyingCount below the limit; the pending question blocks
the CTA entirely. -/
theorem C1_counterexample :
    emergencyCQInput.ux_mode.mode = Mode.emergency ∧
    emergencyCQInput.response_content.cta.isSome = true ∧
    ComponentType.cta ∉ componentTypes (buildFinalUI emergencyCQInput 0) := by
  refine ⟨rfl, rfl, ?_⟩
  decide

/-- C1 (amended): for every input in emergency mode, no summary,
checklist or sources component is placed; and if a CTA is present in the
content and there is no effective clarifying question (none present, or
clarifyingCount at least 2), a CTA component with only the primary text
and no secondary field is placed. -/
theorem C1_emergency_suppression (r : AIResponse) (c : Nat)
    (h : r.ux_mode.mode = Mode.emergency) :
    ComponentType.summary ∉ componentTypes (buildFinalUI r c) ∧
    ComponentType.checklist ∉ componentTypes (buildFinalUI r c) ∧
    ComponentType.sources ∉ componentTypes (buildFinalUI r c) ∧
    (∀ cta : CTAContent, r.response_content.cta = some cta → effectiveHasCQ r c = false →
      { type := ComponentType.cta, content := UIContent.ctaC { primary := cta.primary } } ∈
        (buildFinalUI r c).final_ui.components) := by
  have hE : emergencyFlag r = true := by simp [emergencyFlag, h]
  refine ⟨?_, ?_, ?_, ?_⟩
  · intro hmem
    rcases emergency_componentTypes hE hmem with ht | ht <;> simp at ht
  · intro hmem
    rcases emergency_componentTypes hE hmem with ht | ht <;> simp at ht
  · intro hmem
    rcases emergency_componentTypes hE hmem with ht | ht <;> simp at ht
  · intro cta hcta hcq
    have hc6 : (ctaStep r.response_content (effectiveHasCQ r c) (emergencyFlag r)
        (triageFlag r)).comps =
        [{ type := ComponentType.cta, content := UIContent.ctaC { primary := cta.primary } }] := by
      rw [hcq, hE]
      exact ctaStep_emergency hcta
    show _ ∈ assembledComponents r c
    apply mem_assembledComponents.2
    refine Or.inr (Or.inr (Or.inr (Or.inr (Or.inr (Or.inl ?_)))))
    rw [hc6]
    simp

/-- Witness for C1 (amended) at a concrete emergency input carrying a
summary, a checklist, sources and a CTA with a secondary action. -/
theorem C1_emergency_suppression_witness :
    emergencyFullInput.ux_mode.mode = Mode.emergency ∧
    (ComponentType.summary ∉ componentTypes (buildFinalUI emergencyFullInput 0) ∧
     ComponentType.checklist ∉ componentTypes (buildFinalUI emergencyFullInput 0) ∧
     ComponentType.sources ∉ componentTypes (buildFinalUI emergencyFullInput 0) ∧
     (∀ cta : CTAContent, emergencyFullInput.response_content.cta = some cta →
        effectiveHasCQ emergencyFullInput 0 = false →
        { type := ComponentType.cta, content := UIContent.ctaC { primary := cta.primary } } ∈
          (buildFinalUI emergencyFullInput 0).final_ui.components)) :=
  ⟨rfl, C1_emergency_suppression emergencyFullInput 0 rfl⟩

/-! ## C2 — clarify circuit breaker -/

/-- C2: for every input with clarifyingCount at least 2, no clarifying
question component is placed, whatever the content, and
free_text_allowed is true. -/
theorem C2_clarify_circuit_breaker (r : AIResponse) (c : Nat) (h : 2 ≤ c) :
    ComponentType.clarifying_question ∉ componentTypes (buildFinalUI r c) ∧
    (buildFinalUI r c).guardrails.free_text_allowed = true := by
  have hcq : effectiveHasCQ r c = false := by
    simp [effectiveHasCQ, clarifyingLimitExceeded, h]
  constructor
  · intro hmem
    rcases mem_componentTypes.1 hmem with ⟨comp, hm, ht⟩
    rcases mem_assembledComponents.1 hm with h1 | h2 | h3 | h4 | h5 | h6 | h7
    · rw [alertTopStep_type h1] at ht; simp at ht
    · rw [summaryStep_type h2] at ht; simp at ht
    · rw [alertInfoStep_type h3] at ht; simp at ht
    · rw [hcq, clarifyingStep_comps_of_no_cq] at h4; simp at h4
    · rw [checklistStep_type h5] at ht; simp at ht
    · rw [ctaStep_type h6] at ht; simp at ht
    · rw [sourcesStep_type h7] at ht; simp at ht
  · simp [buildFinalUI, hcq]

/-- Witness for C2 at a concrete clarification-mode input whose content
still carries a clarifying question while clarifyingCount is 2. -/
theorem C2_clarify_circuit_breaker_witness :
    2 ≤ 2 ∧
    (ComponentType.clarifying_question ∉
        componentTypes (buildFinalUI emergencyCQInput 2) ∧
      (buildFinalUI emergencyCQInput 2).guardrails.free_text_allowed = true) :=
  ⟨le_refl 2, C2_clarify_circuit_breaker emergencyCQInput 2 (le_refl 2)⟩

/-! ## C3 — alert-first invariant -/

/-- C3: whenever the content carries a safety alert of level caution or
emergency, that alert is the first placed component, in every mode. -/
theorem C3_alert_first (r : AIResponse) (c : Nat) (sa : SafetyAlertContent)
    (h1 : r.response_content.safety_alert = some sa)
    (h2 : sa.level = AlertLevel.caution ∨ sa.level = AlertLevel.emergency) :
    (buildFinalUI r c).final_ui.components.head? =
      some { type := ComponentType.safety_alert, content := UIContent.safetyAlertC sa } := by
  have hA : (alertTopStep r.response_content).comps =
      [{ type := ComponentType.safety_alert, content := UIContent.safetyAlertC sa }] := by
    rcases h2 with h | h <;> simp [alertTopStep, h1, h]
  show (assembledComponents r c).head? = _
  unfold assembledComponents
  rw [hA]
  rfl

def cautionAlert : SafetyAlertContent :=
  { level := AlertLevel.caution, title := some "Watch for", message := "Escalating symptoms" }

/-- Input in informational mode carrying a caution alert and a summary. -/
def cautionAlertInput : AIResponse :=
  { intent_detection := sampleIntent,
    ux_mode := { mode := Mode.informational, reason := "simple question" },
    response_content :=
      { summary := some "Usually harmless", safety_alert := some cautionAlert } }

/-- Witness for C3 at a concrete caution-alert input: the alert is the
first component even though a summary is also placed. -/
theorem C3_alert_first_witness :
    cautionAlertInput.response_content.safety_alert = some cautionAlert ∧
    (cautionAlert.level = AlertLevel.caution ∨ cautionAlert.level = AlertLevel.emergency) ∧
    (buildFinalUI cautionAlertInput 0).final_ui.components.head? =
      some { type := ComponentType.safety_alert, content := UIContent.safetyAlertC cautionAlert } :=
  ⟨rfl, Or.inl rfl, C3_alert_first cautionAlertInput 0 cautionAlert rfl (Or.inl rfl)⟩

/-! ## C10 — emergency mode with a pending clarifying question -/

/-- C10: in emergency mode with a clarifying question present and
clarifyingCount below 2, free-text input is forbidden, yet no clarifying
question component is placed and the exit state does not report waiting
for structured input. -/
theorem C10_emergency_clarifying_lockout (r : AIResponse) (c : Nat)
    (h1 : r.ux_mode.mode = Mode.emergency)
    (h2 : r.response_content.clarifying_question.isSome = true)
    (h3 : c < 2) :
    (buildFinalUI r c).guardrails.free_text_allowed = false ∧
    ComponentType.clarifying_question ∉ componentTypes (buildFinalUI r c) ∧
    (buildFinalUI r c).exit_state.waiting_for_structured_input = false := by
  have hE : emergencyFlag r = true := by simp [emergencyFlag, h1]
  have hnot : ¬ (2 ≤ c) := by omega
  have hcq : effectiveHasCQ r c = true := by
    simp [effectiveHasCQ, clarifyingLimitExceeded, h2, hnot]
  refine ⟨?_, ?_, ?_⟩
  · simp [buildFinalUI, hcq]
  · intro hmem
    rcases emergency_componentTypes hE hmem with ht | ht <;> simp at ht
  · simp [buildFinalUI, hcq, hE]

/-- Witness for C10 at the concrete emergency input carrying a
clarifying question. -/
theorem C10_emergency_clarifying_lockout_witness :
    emergencyCQInput.ux_mode.mode = Mode.emergency ∧
    emergencyCQInput.response_content.clarifying_question.isSome = true ∧
    0 < 2 ∧
    ((buildFinalUI emergencyCQInput 0).guardrails.free_text_allowed = false ∧
      ComponentType.clarifying_question ∉ componentTypes (buildFinalUI emergencyCQInput 0) ∧
      (buildFinalUI emergencyCQInput 0).exit_state.waiting_for_structured_input = false) :=
  ⟨rfl, rfl, by decide,
    C10_emergency_clarifying_lockout emergencyCQInput 0 rfl rfl (by decide)⟩

/-! ## C6 — checklist truncation -/

/-- C6: for an eligible checklist (present, not emergency mode, no
effective clarifying question), 7 items are truncated to exactly 5, and
a single item causes the checklist to be dropped entirely. -/
theorem C6_checklist_truncation (r : AIResponse) (c : Nat) (cl : ChecklistContent)
    (h1 : r.response_content.checklist = some cl)
    (h2 : r.ux_mode.mode ≠ Mode.emergency)
    (h3 : effectiveHasCQ r c = false) :
    (cl.items.length = 7 →
      { type := ComponentType.checklist,
        content := UIContent.checklistC { cl with items := cl.items.take 5 } } ∈
          (buildFinalUI r c).final_ui.components ∧
      (cl.items.take 5).length = 5) ∧
    (cl.items.length = 1 →
      ComponentType.checklist ∉ componentTypes (buildFinalUI r c)) := by
  have hE : emergencyFlag r = false := by
    simp [emergencyFlag]
    exact h2
  constructor
  · intro h7
    have hlen : (cl.items.take 5).length = 5 := by
      simp [List.length_take, h7]
    have hstep : (checklistStep r.response_content (emergencyFlag r)
        (effectiveHasCQ r c)).comps =
        [{ type := ComponentType.checklist,
           content := UIContent.checklistC { cl with items := cl.items.take 5 } }] := by
      rw [hE, h3]
      simp [checklistStep, h1, hlen]
    refine ⟨?_, hlen⟩
    show _ ∈ assembledComponents r c
    apply mem_assembledComponents.2
    refine Or.inr (Or.inr (Or.inr (Or.inr (Or.inl ?_))))
    rw [hstep]
    simp
  · intro hone
    have hstep : (checklistStep r.response_content (emergencyFlag r)
        (effectiveHasCQ r c)).comps = [] := by
      rw [hE, h3]
      have : (cl.items.take 5).length = 1 := by
        simp [List.length_take, hone]
      simp [checklistStep, h1, this]
    intro hmem
    rcases mem_componentTypes.1 hmem with ⟨comp, hm, ht⟩
    rcases mem_assembledComponents.1 hm with g1 | g2 | g3 | g4 | g5 | g6 | g7
    · rw [alertTopStep_type g1] at ht; simp at ht
    · rw [summaryStep_type g2] at ht; simp at ht
    · rw [alertInfoStep_type g3] at ht; simp at ht
    · rw [clarifyingStep_type g4] at ht; simp at ht
    · rw [hstep] at g5; simp at g5
    · rw [ctaStep_type g6] at ht; simp at ht
    · rw [sourcesStep_type g7] at ht; simp at ht

/-- A 7-item checklist. -/
def sevenChecklist : ChecklistContent :=
  { heading := "Steps", items := ["one", "two", "three", "four", "five", "six", "seven"] }

/-- Informational-mode input with a 7-item checklist. -/
def sevenChecklistInput : AIResponse :=
  { intent_detection := sampleIntent,
    ux_mode := { mode := Mode.informational, reason := "prevention" },
    response_content :=
      { summary := some "Plan ahead", checklist := some sevenChecklist } }

/-- Witness for C6 at the concrete 7-item checklist input. -/
theorem C6_checklist_truncation_witness :
    sevenChecklistInput.response_content.checklist = some sevenChecklist ∧
    sevenChecklistInput.ux_mode.mode ≠ Mode.emergency ∧
    effectiveHasCQ sevenChecklistInput 0 = false ∧
    ((sevenChecklist.items.length = 7 →
      { type := ComponentType.checklist,
        content := UIContent.checklistC { sevenChecklist with items := sevenChecklist.items.take 5 } } ∈
          (buildFinalUI sevenChecklistInput 0).final_ui.components ∧
      (sevenChecklist.items.take 5).length = 5) ∧
    (sevenChecklist.items.length = 1 →
      ComponentType.checklist ∉ componentTypes (buildFinalUI sevenChecklistInput 0))) :=
  ⟨rfl, by decide, rfl,
    C6_checklist_truncation sevenChecklistInput 0 sevenChecklist rfl (by decide) rfl⟩

/-! ## C7 — determinism and sources cap -/

/-- C7: buildFinalUI is deterministic (equal arguments give equal
results), and an eligible 6-entry sources array (present and non-empty,
not emergency mode, no effective clarifying question) is placed truncated
to exactly 4 entries. -/
theorem C7_determinism_and_sources_cap (r : AIResponse) (c : Nat) (srcs : List SourceContent)
    (h1 : r.response_content.sources = some srcs)
    (h2 : srcs.length = 6)
    (h3 : r.ux_mode.mode ≠ Mode.emergency)
    (h4 : effectiveHasCQ r c = false) :
    (∀ (r₁ r₂ : AIResponse) (c₁ c₂ : Nat), r₁ = r₂ → c₁ = c₂ →
      buildFinalUI r₁ c₁ = buildFinalUI r₂ c₂) ∧
    ({ type := ComponentType.sources, content := UIContent.sourcesC (srcs.take 4) } ∈
        (buildFinalUI r c).final_ui.components ∧
      (srcs.take 4).length = 4) := by
  have hE : emergencyFlag r = false := by
    simp [emergencyFlag]
    exact h3
  have hlen : (srcs.take 4).length = 4 := by
    simp [List.length_take, h2]
  refine ⟨?_, ?_, hlen⟩
  · intro r₁ r₂ c₁ c₂ hr hc
    rw [hr, hc]
  · have hstep : (sourcesStep r.response_content (emergencyFlag r)
        (effectiveHasCQ r c)).comps =
        [{ type := ComponentType.sources, content := UIContent.sourcesC (srcs.take 4) }] := by
      rw [hE, h4]
      have hpos : 0 < srcs.length := by omega
      simp [sourcesStep, h1, hpos, hlen]
    show _ ∈ assembledComponents r c
    apply mem_assembledComponents.2
    refine Or.inr (Or.inr (Or.inr (Or.inr (Or.inr (Or.inr ?_)))))
    rw [hstep]
    simp

/-- A list of six sources. -/
def sixSources : List SourceContent :=
  [sampleSource, sampleSource, sampleSource, sampleSource, sampleSource, sampleSource]

/-- Informational-mode input with six sources. -/
def sixSourcesInput : AIResponse :=
  { intent_detection := sampleIntent,
    ux_mode := { mode := Mode.informational, reason := "research" },
    response_content :=
      { summary := some "Reliable reading", sources := some sixSources } }

/-- Witness for C7 at the concrete six-source input. -/
theorem C7_determinism_and_sources_cap_witness :
    sixSourcesInput.response_content.sources = some sixSources ∧
    sixSources.length = 6 ∧
    sixSourcesInput.ux_mode.mode ≠ Mode.emergency ∧
    effectiveHasCQ sixSourcesInput 0 = false ∧
    ((∀ (r₁ r₂ : AIResponse) (c₁ c₂ : Nat), r₁ = r₂ → c₁ = c₂ →
        buildFinalUI r₁ c₁ = buildFinalUI r₂ c₂) ∧
      ({ type := ComponentType.sources, content := UIContent.sourcesC (sixSources.take 4) } ∈
          (buildFinalUI sixSourcesInput 0).final_ui.components ∧
        (sixSources.take 4).length = 4)) :=
  ⟨rfl, rfl, by decide, rfl,
    C7_determinism_and_sources_cap sixSourcesInput 0 sixSources rfl rfl (by decide) rfl⟩

/-! ## C4 — the emergency triage scenario -/

def emergencyAlert : SafetyAlertContent :=
  { level := AlertLevel.emergency, title := some "Emergency",
    message := "Call emergency services now" }

/-- The fixed emergency triage scenario input: emergency mode, high
risk, triage intent, an emergency safety alert and a CTA with both a
primary and a secondary action, and no other content blocks. -/
def emergencyTriageInput : AIResponse :=
  { intent_detection := triageIntent,
    ux_mode := { mode := Mode.emergency, reason := "clear emergency" },
    response_content :=
      { safety_alert := some emergencyAlert,
        cta := some { primary := "Call emergency services", secondary := some "Find urgent care" } } }

/-- C4: evaluating buildFinalUI at the emergency triage scenario input.
The components are exactly the emergency alert followed by the
primary-only CTA (the secondary is dropped), no checklist or clarifying
question appears, but free_text_allowed evaluates to true, not false as
the scenario table and the spec expect: the engine derives
free_text_allowed solely from the clarifying question and ignores
emergency mode. -/
theorem C4_emergency_triage_eval :
    (buildFinalUI emergencyTriageInput 0).final_ui.components =
      [{ type := ComponentType.safety_alert, content := UIContent.safetyAlertC emergencyAlert },
       { type := ComponentType.cta,
         content := UIContent.ctaC { primary := "Call emergency services" } }] ∧
    ComponentType.checklist ∉ componentTypes (buildFinalUI emergencyTriageInput 0) ∧
    ComponentType.clarifying_question ∉ componentTypes (buildFinalUI emergencyTriageInput 0) ∧
    (buildFinalUI emergencyTriageInput 0).guardrails.free_text_allowed = true := by
  decide

/-! ## C5 — the blocked-components audit -/

/-- Informational-mode input whose checklist has a single item: the
checklist is dropped by the 2-item minimum with no audit entry. -/
def singleChecklistInput : AIResponse :=
  { intent_detection := sampleIntent,
    ux_mode := { mode := Mode.informational, reason := "plan" },
    response_content := { checklist := some { heading := "Steps", items := ["only"] } } }

/-- C5 counterexample: a present checklist with one item in the eligible
branch is neither placed nor recorded in blocked_components, so the claim
that every present-but-unplaced block is audited fails. -/
theorem C5_counterexample :
    singleChecklistInput.response_content.checklist.isSome = true ∧
    ComponentType.checklist ∉ componentTypes (buildFinalUI singleChecklistInput 0) ∧
    ComponentType.checklist ∉ (buildFinalUI singleChecklistInput 0).guardrails.blocked_components := by
  decide

/-- Whether the content block corresponding to a component type is
present in the response content. -/
def blockPresent (rc : ResponseContent) : ComponentType → Bool
  | ComponentType.summary => rc.summary.isSome
  | ComponentType.safety_alert => rc.safety_alert.isSome
  | ComponentType.clarifying_question => rc.clarifying_question.isSome
  | ComponentType.checklist => rc.checklist.isSome
  | ComponentType.cta => rc.cta.isSome
  | ComponentType.sources => rc.sources.isSome
  | ComponentType.return_to_conversation => false

/-- The three silent-drop cases of buildFinalUI: a present summary that
is the empty string (falsy, so neither placed nor recorded), a checklist
left with fewer than 2 items after truncation in the eligible branch,
and a present empty sources array in the eligible branch. -/
def silentDropException (r : AIResponse) (c : Nat) (t : ComponentType) : Bool :=
  (t == ComponentType.summary && r.response_content.summary == some "") ||
  (t == ComponentType.checklist && !emergencyFlag r && !effectiveHasCQ r c &&
    (match r.response_content.checklist with
      | some cl => decide ((cl.items.take 5).length < 2)
      | none => false)) ||
  (t == ComponentType.sources && !emergencyFlag r && !effectiveHasCQ r c &&
    r.response_content.sources == some ([] : List SourceContent))

theorem mem_assembledBlocked {r : AIResponse} {c : Nat} {t : ComponentType} :
    t ∈ assembledBlocked r c ↔
      t ∈ (alertTopStep r.response_content).blocked ∨
      t ∈ (summaryStep r.response_content (emergencyFlag r)).blocked ∨
      t ∈ (alertInfoStep r.response_content).blocked ∨
      t ∈ (clarifyingStep r.response_content (effectiveHasCQ r c) (emergencyFlag r)
        (clarifyingLimitExceeded c)).blocked ∨
      t ∈ (checklistStep r.response_content (emergencyFlag r) (effectiveHasCQ r c)).blocked ∨
      t ∈ (ctaStep r.response_content (effectiveHasCQ r c) (emergencyFlag r) (triageFlag r)).blocked ∨
      t ∈ (sourcesStep r.response_content (emergencyFlag r) (effectiveHasCQ r c)).blocked := by
  unfold assembledBlocked
  simp [List.mem_append, or_assoc]

theorem summaryStep_blocked_emergency {rc : ResponseContent} {s : String}
    (hs : rc.summary = some s) (hne : s ≠ "") :
    (summaryStep rc true).blocked = [ComponentType.summary] := by
  simp only [summaryStep, hs]
  split_ifs with h1 h2 <;> first | rfl | simp_all

theorem summaryStep_places {rc : ResponseContent} {s : String}
    (hs : rc.summary = some s) (hne : s ≠ "") :
    (summaryStep rc false).comps =
      [{ type := ComponentType.summary, content := UIContent.summaryC s }] := by
  simp only [summaryStep, hs]
  split_ifs with h1 h2 <;> first | rfl | simp_all

theorem alertTopStep_places {rc : ResponseContent} {sa : SafetyAlertContent}
    (hsa : rc.safety_alert = some sa)
    (hl : sa.level = AlertLevel.caution ∨ sa.level = AlertLevel.emergency) :
    (alertTopStep rc).comps =
      [{ type := ComponentType.safety_alert, content := UIContent.safetyAlertC sa }] := by
  rcases hl with h | h <;> simp [alertTopStep, hsa, h]

theorem alertInfoStep_places {rc : ResponseContent} {sa : SafetyAlertContent}
    (hsa : rc.safety_alert = some sa) (hl : sa.level = AlertLevel.informational) :
    (alertInfoStep rc).comps =
      [{ type := ComponentType.safety_alert, content := UIContent.safetyAlertC sa }] := by
  simp [alertInfoStep, hsa, hl]

theorem clarifyingStep_blocked_suppress {rc : ResponseContent} {b₁ b₃ : Bool}
    (h : rc.clarifying_question.isSome = true) :
    (clarifyingStep rc b₁ true b₃).blocked = [ComponentType.clarifying_question] := by
  simp only [clarifyingStep, h]
  split_ifs with h1 h2 h3 <;> first | rfl | simp_all

theorem clarifyingStep_blocked_limit {rc : ResponseContent}
    (h : rc.clarifying_question.isSome = true) :
    (clarifyingStep rc false false true).blocked = [ComponentType.clarifying_question] := by
  simp only [clarifyingStep, h]
  split_ifs with h1 h2 h3 <;> first | rfl | simp_all

theorem clarifyingStep_places {rc : ResponseContent} {q : ClarifyingQuestionContent} {b₃ : Bool}
    (hq : rc.clarifying_question = some q) :
    (clarifyingStep rc true false b₃).comps =
      [{ type := ComponentType.clarifying_question, content := UIContent.clarifyingC q }] := by
  simp [clarifyingStep, hq]

theorem checklistStep_blocked_emergency {rc : ResponseContent} {b₂ : Bool}
    (h : rc.checklist.isSome = true) :
    (checklistStep rc true b₂).blocked = [ComponentType.checklist] := by
  rcases Option.isSome_iff_exists.1 h with ⟨cl, hc⟩
  simp only [checklistStep, hc]
  split_ifs with h1 h2 h3 h4 <;> first | rfl | simp_all

theorem checklistStep_blocked_cq {rc : ResponseContent}
    (h : rc.checklist.isSome = true) :
    (checklistStep rc false true).blocked = [ComponentType.checklist] := by
  rcases Option.isSome_iff_exists.1 h with ⟨cl, hc⟩
  simp only [checklistStep, hc]
  split_ifs with h1 h2 h3 h4 <;> first | rfl | simp_all

theorem checklistStep_places {rc : ResponseContent} {cl : ChecklistContent}
    (hc : rc.checklist = some cl) (hlen : 2 ≤ (cl.items.take 5).length) :
    (checklistStep rc false false).comps =
      [{ type := ComponentType.checklist,
         content := UIContent.checklistC { cl with items := cl.items.take 5 } }] := by
  have hlen2 : 2 ≤ cl.items.length := by
    have hx := hlen
    simp [List.length_take] at hx
    omega
  simp [checklistStep, hc, hlen2]

theorem ctaStep_blocked_cq {rc : ResponseContent} {b₂ b₃ : Bool}
    (h : rc.cta.isSome = true) :
    (ctaStep rc true b₂ b₃).blocked = [ComponentType.cta] := by
  rcases Option.isSome_iff_exists.1 h with ⟨cta, hc⟩
  simp [ctaStep, hc]

theorem ctaStep_places_no_cq {rc : ResponseContent} {cta : CTAContent} {b₂ b₃ : Bool}
    (hc : rc.cta = some cta) :
    ∃ x ∈ (ctaStep rc false b₂ b₃).comps, x.type = ComponentType.cta := by
  simp only [ctaStep, hc]
  split_ifs with h1 h2 h3 h4 <;> simp_all

theorem sourcesStep_blocked_emergency {rc : ResponseContent} {b₂ : Bool}
    (h : rc.sources.isSome = true) :
    (sourcesStep rc true b₂).blocked = [ComponentType.sources] := by
  rcases Option.isSome_iff_exists.1 h with ⟨l, hs⟩
  simp only [sourcesStep, hs]
  split_ifs with h1 h2 h3 h4 <;> first | rfl | simp_all

theorem sourcesStep_blocked_cq {rc : ResponseContent}
    (h : rc.sources.isSome = true) :
    (sourcesStep rc false true).blocked = [ComponentType.sources] := by
  rcases Option.isSome_iff_exists.1 h with ⟨l, hs⟩
  simp only [sourcesStep, hs]
  split_ifs with h1 h2 h3 h4 <;> first | rfl | simp_all

theorem sourcesStep_places {rc : ResponseContent} {l : List SourceContent}
    (hs : rc.sources = some l) (hne : 0 < l.length) :
    (sourcesStep rc false false).comps =
      [{ type := ComponentType.sources, content := UIContent.sourcesC (l.take 4) }] := by
  have h1le : 1 ≤ l.length := hne
  simp [sourcesStep, hs, hne, h1le]

/-- A Bool is false when it is not true. -/
theorem bool_eq_false_of_ne_true {b : Bool} (h : ¬ b = true) : b = false := by
  cases hv : b
  · rfl
  · exact absurd hv h

/-- C5 (amended): every component type whose content block is present
but which is not placed appears in blocked_components, except for the
three silent drops of the engine: an empty summary string, a checklist
reduced below 2 items in the eligible branch, and an empty sources array
in the eligible branch. -/
theorem C5_blocked_audit (r : AIResponse) (c : Nat) (t : ComponentType)
    (h1 : blockPresent r.response_content t = true)
    (h2 : t ∉ componentTypes (buildFinalUI r c))
    (h3 : silentDropException r c t = false) :
    t ∈ (buildFinalUI r c).guardrails.blocked_components := by
  show t ∈ assembledBlocked r c
  cases t with
  | summary =>
    simp only [blockPresent] at h1
    rcases Option.isSome_iff_exists.1 h1 with ⟨s, hs⟩
    by_cases hempty : s = ""
    · rw [hempty] at hs
      simp [silentDropException, hs] at h3
    · by_cases hE : emergencyFlag r = true
      · apply mem_assembledBlocked.2
        refine Or.inr (Or.inl ?_)
        rw [hE, summaryStep_blocked_emergency hs hempty]
        simp
      · exfalso
        apply h2
        apply mem_componentTypes.2
        refine ⟨{ type := ComponentType.summary, content := UIContent.summaryC s }, ?_, rfl⟩
        apply mem_assembledComponents.2
        refine Or.inr (Or.inl ?_)
        rw [bool_eq_false_of_ne_true hE, summaryStep_places hs hempty]
        simp
  | safety_alert =>
    simp only [blockPresent] at h1
    rcases Option.isSome_iff_exists.1 h1 with ⟨sa, hsa⟩
    exfalso
    apply h2
    apply mem_componentTypes.2
    refine ⟨{ type := ComponentType.safety_alert, content := UIContent.safetyAlertC sa }, ?_, rfl⟩
    apply mem_assembledComponents.2
    cases hl : sa.level with
    | informational =>
      refine Or.inr (Or.inr (Or.inl ?_))
      rw [alertInfoStep_places hsa hl]
      simp
    | caution =>
      refine Or.inl ?_
      rw [alertTopStep_places hsa (Or.inl hl)]
      simp
    | emergency =>
      refine Or.inl ?_
      rw [alertTopStep_places hsa (Or.inr hl)]
      simp
  | clarifying_question =>
    simp only [blockPresent] at h1
    by_cases hE : emergencyFlag r = true
    · apply mem_assembledBlocked.2
      refine Or.inr (Or.inr (Or.inr (Or.inl ?_)))
      rw [hE, clarifyingStep_blocked_suppress h1]
      simp
    · have hE2 : emergencyFlag r = false := bool_eq_false_of_ne_true hE
      by_cases hcq : effectiveHasCQ r c = true
      · rcases Option.isSome_iff_exists.1 h1 with ⟨q, hq⟩
        exfalso
        apply h2
        apply mem_componentTypes.2
        refine ⟨⟨ComponentType.clarifying_question, UIContent.clarifyingC q⟩, ?_, rfl⟩
        apply mem_assembledComponents.2
        refine Or.inr (Or.inr (Or.inr (Or.inl ?_)))
        rw [hcq, hE2, clarifyingStep_places hq]
        simp
      · have hcqf : effectiveHasCQ r c = false := bool_eq_false_of_ne_true hcq
        have hlim : clarifyingLimitExceeded c = true := by
          have := hcqf
          simp [effectiveHasCQ, h1] at this
          exact this
        apply mem_assembledBlocked.2
        refine Or.inr (Or.inr (Or.inr (Or.inl ?_)))
        rw [hcqf, hE2, hlim, clarifyingStep_blocked_limit h1]
        simp
  | checklist =>
    simp only [blockPresent] at h1
    rcases Option.isSome_iff_exists.1 h1 with ⟨cl, hc⟩
    by_cases hE : emergencyFlag r = true
    · apply mem_assembledBlocked.2
      refine Or.inr (Or.inr (Or.inr (Or.inr (Or.inl ?_))))
      rw [hE, checklistStep_blocked_emergency h1]
      simp
    · have hE2 : emergencyFlag r = false := bool_eq_false_of_ne_true hE
      by_cases hcq : effectiveHasCQ r c = true
      · apply mem_assembledBlocked.2
        refine Or.inr (Or.inr (Or.inr (Or.inr (Or.inl ?_))))
        rw [hE2, hcq, checklistStep_blocked_cq h1]
        simp
      · have hcqf : effectiveHasCQ r c = false := bool_eq_false_of_ne_true hcq
        by_cases hlen : 2 ≤ (cl.items.take 5).length
        · exfalso
          apply h2
          apply mem_componentTypes.2
          refine ⟨⟨ComponentType.checklist,
            UIContent.checklistC { cl with items := cl.items.take 5 }⟩, ?_, rfl⟩
          apply mem_assembledComponents.2
          refine Or.inr (Or.inr (Or.inr (Or.inr (Or.inl ?_))))
          rw [hE2, hcqf, checklistStep_places hc hlen]
          simp
        · have hlt2 : cl.items.length < 2 := by
            simp [List.length_take] at hlen
            omega
          simp [silentDropException, hc, hE2, hcqf] at h3
          omega
  | cta =>
    simp only [blockPresent] at h1
    rcases Option.isSome_iff_exists.1 h1 with ⟨cta, hcv⟩
    by_cases hcq : effectiveHasCQ r c = true
    · apply mem_assembledBlocked.2
      refine Or.inr (Or.inr (Or.inr (Or.inr (Or.inr (Or.inl ?_)))))
      rw [hcq, ctaStep_blocked_cq h1]
      simp
    · have hcqf : effectiveHasCQ r c = false := bool_eq_false_of_ne_true hcq
      exfalso
      apply h2
      rcases @ctaStep_places_no_cq r.response_content cta (emergencyFlag r)
          (triageFlag r) hcv with ⟨x, hx, hxt⟩
      apply mem_componentTypes.2
      refine ⟨x, mem_assembledComponents.2 ?_, hxt⟩
      refine Or.inr (Or.inr (Or.inr (Or.inr (Or.inr (Or.inl ?_)))))
      rw [hcqf]
      exact hx
  | sources =>
    simp only [blockPresent] at h1
    rcases Option.isSome_iff_exists.1 h1 with ⟨l, hs⟩
    by_cases hE : emergencyFlag r = true
    · apply mem_assembledBlocked.2
      refine Or.inr (Or.inr (Or.inr (Or.inr (Or.inr (Or.inr ?_)))))
      rw [hE, sourcesStep_blocked_emergency h1]
      simp
    · have hE2 : emergencyFlag r = false := bool_eq_false_of_ne_true hE
      by_cases hcq : effectiveHasCQ r c = true
      · apply mem_assembledBlocked.2
        refine Or.inr (Or.inr (Or.inr (Or.inr (Or.inr (Or.inr ?_)))))
        rw [hE2, hcq, sourcesStep_blocked_cq h1]
        simp
      · have hcqf : effectiveHasCQ r c = false := bool_eq_false_of_ne_true hcq
        cases hl : l with
        | nil =>
          rw [hl] at hs
          simp [silentDropException, hs, hE2, hcqf] at h3
        | cons a as =>
          exfalso
          apply h2
          apply mem_componentTypes.2
          refine ⟨⟨ComponentType.sources, UIContent.sourcesC (l.take 4)⟩, ?_, rfl⟩
          apply mem_assembledComponents.2
          refine Or.inr (Or.inr (Or.inr (Or.inr (Or.inr (Or.inr ?_)))))
          have hpos : 0 < l.length := by
            rw [hl]
            simp
          rw [hE2, hcqf, sourcesStep_places hs hpos]
          simp
  | return_to_conversation =>
    simp [blockPresent] at h1

/-- Witness for C5 (amended) at the concrete emergency input: the
blocked summary is audited. -/
theorem C5_blocked_audit_witness :
    blockPresent emergencyFullInput.response_content ComponentType.summary = true ∧
    ComponentType.summary ∉ componentTypes (buildFinalUI emergencyFullInput 0) ∧
    silentDropException emergencyFullInput 0 ComponentType.summary = false ∧
    ComponentType.summary ∈ (buildFinalUI emergencyFullInput 0).guardrails.blocked_components :=
  ⟨rfl, by decide, by decide,
    C5_blocked_audit emergencyFullInput 0 ComponentType.summary rfl (by decide) (by decide)⟩

/-! ## C8 and C9 — the evaluator -/

theorem count_pass_eq_length_iff (rs : List TestResult) :
    ((rs.filter (fun v => v == TestResult.pass)).length = rs.length) ↔
      ∀ v ∈ rs, v = TestResult.pass := by
  induction rs with
  | nil => simp
  | cons a t ih =>
    by_cases ha : a = TestResult.pass
    · subst ha
      simp [List.filter_cons, ih]
    · have hb : (a == TestResult.pass) = false := by
        simp [ha]
      simp [List.filter_cons, hb, ha]
      have hle := List.length_filter_le (fun v => v == TestResult.pass) t
      omega

theorem overallOf_pass_iff (rs : List TestResult) :
    overallOf rs = TestResult.pass ↔ ∀ v ∈ rs, v = TestResult.pass := by
  unfold overallOf
  split_ifs with h1 h2
  · simp only [Bool.and_eq_true, beq_iff_eq] at h1
    simp
    exact (count_pass_eq_length_iff rs).1 h1.2
  · constructor
    · intro h
      simp at h
    · intro hall
      exfalso
      apply h1
      have hp : (rs.filter (fun v => v == TestResult.pass)).length = rs.length :=
        (count_pass_eq_length_iff rs).2 hall
      have hf : (rs.filter (fun v => v == TestResult.fail)).length = 0 := by
        rw [List.length_eq_zero, List.filter_eq_nil]
        intro a ha
        simp [hall a ha]
      simp [hp, hf]
  · constructor
    · intro h
      simp at h
    · intro hall
      exfalso
      apply h1
      have hp : (rs.filter (fun v => v == TestResult.pass)).length = rs.length :=
        (count_pass_eq_length_iff rs).2 hall
      have hf : (rs.filter (fun v => v == TestResult.fail)).length = 0 := by
        rw [List.length_eq_zero, List.filter_eq_nil]
        intro a ha
        simp [hall a ha]
      simp [hp, hf]

theorem overallOf_fail_iff (rs : List TestResult) :
    overallOf rs = TestResult.fail ↔
      rs.length < 2 * (rs.filter (fun v => v == TestResult.fail)).length := by
  unfold overallOf
  split_ifs with h1 h2
  · simp only [Bool.and_eq_true, beq_iff_eq] at h1
    simp [h1.1]
  · simp only [decide_eq_true_eq] at h2
    simp [h2]
  · simp only [decide_eq_true_eq] at h2
    simp [h2]

theorem overallOf_cases (rs : List TestResult) :
    overallOf rs = TestResult.pass ∨ overallOf rs = TestResult.fail ∨
      overallOf rs = TestResult.mixed := by
  unfold overallOf
  split_ifs <;> simp

/-- The details recorded by evaluateTest for a non-null response carry
exactly the relevant field verdicts, in the order of the source's
results array. -/
theorem detailResults_evaluateTest (scenario : TestScenario) (resp : EvalResponse) :
    detailResults (evaluateTest scenario (some resp)).details =
      relevantResults scenario.expectations (fieldVerdicts scenario.expectations resp) := by
  unfold evaluateTest detailResults relevantResults
  cases hfc : scenario.expectations.forbidden_components <;>
    cases hsl : scenario.expectations.safety_alert_level <;>
    simp [hfc, hsl]

theorem overall_evaluateTest (scenario : TestScenario) (resp : EvalResponse) :
    (evaluateTest scenario (some resp)).overall =
      overallOf (relevantResults scenario.expectations (fieldVerdicts scenario.expectations resp)) :=
  rfl

/-- C8: for every scenario and non-null response, the aggregate verdict
is pass exactly when every relevant field verdict passes, fail exactly
when strictly more than half of the relevant field verdicts fail, and
the middle verdict otherwise. -/
theorem C8_aggregate_verdict (scenario : TestScenario) (resp : EvalResponse) :
    ((evaluateTest scenario (some resp)).overall = TestResult.pass ↔
      ∀ v ∈ detailResults (evaluateTest scenario (some resp)).details, v = TestResult.pass) ∧
    ((evaluateTest scenario (some resp)).overall = TestResult.fail ↔
      (detailResults (evaluateTest scenario (some resp)).details).length <
        2 * ((detailResults (evaluateTest scenario (some resp)).details).filter
          (fun v => v == TestResult.fail)).length) ∧
    ((evaluateTest scenario (some resp)).overall = TestResult.mixed ↔
      ((¬ ∀ v ∈ detailResults (evaluateTest scenario (some resp)).details, v = TestResult.pass) ∧
        ¬ ((detailResults (evaluateTest scenario (some resp)).details).length <
          2 * ((detailResults (evaluateTest scenario (some resp)).details).filter
            (fun v => v == TestResult.fail)).length))) := by
  rw [detailResults_evaluateTest scenario resp, overall_evaluateTest scenario resp]
  refine ⟨overallOf_pass_iff _, overallOf_fail_iff _, ?_⟩
  constructor
  · intro h
    constructor
    · intro hall
      have hp := (overallOf_pass_iff _).2 hall
      rw [h] at hp
      simp at hp
    · intro hfail
      have hf := (overallOf_fail_iff _).2 hfail
      rw [h] at hf
      simp at hf
  · rintro ⟨hnp, hnf⟩
    rcases overallOf_cases
        (relevantResults scenario.expectations (fieldVerdicts scenario.expectations resp)) with
      h | h | h
    · exact absurd ((overallOf_pass_iff _).1 h) hnp
    · exact absurd ((overallOf_fail_iff _).1 h) hnf
    · exact h

/-- C9: for every scenario, evaluating a null response yields a total
result with every recorded field verdict fail and overall fail. -/
theorem C9_null_response (scenario : TestScenario) :
    (evaluateTest scenario none).overall = TestResult.fail ∧
    ∀ v ∈ detailResults (evaluateTest scenario none).details, v = TestResult.fail := by
  constructor
  · rfl
  · intro v hv
    simp [evaluateTest, detailResults] at hv
    exact hv

end Remedy
